import Mathlib

/-!
Verification of the toms-bar notification subsystem.

The repository's client-side code (api.js, notifications.js) is embedded
directly.  The server-side notification service (simple_notifications.py and
the notification routers) is referenced by the repository's implementation
summary but its source is not present; those operations are modelled from the
specification (sections 4.1-4.3) and marked as such in their doc comments.
-/

namespace TomsBar

/-- Notification category, a closed enumeration (spec section 3). -/
inductive Category where
  | inventory
  | orders
  | system
  | staff
deriving DecidableEq, BEq, Repr

/-- Notification priority, a closed enumeration (spec section 3). -/
inductive Priority where
  | low
  | normal
  | medium
  | high
  | urgent
deriving DecidableEq, BEq, Repr

/-- Semantic subtype used for icon/styling (spec section 3). -/
inductive NotifType where
  | info
  | warning
  | error
  | success
deriving DecidableEq, BEq, Repr

/-- Classifier failure (spec section 7). -/
inductive ClassifyError where
  | invalidEventKind
deriving DecidableEq, Repr

/-- Modelled from the spec: the Notification Classifier of section 4.1
(`simple_notifications.py` is absent from the source tree).  Pure mapping
from an event kind to the `(category, priority, notification_type)` triple
of the fixed policy table; any kind outside the closed set fails with
`InvalidEventKind`. -/
def classify (kind : String) : Except ClassifyError (Category × Priority × NotifType) :=
  if kind = "inventory_low" then .ok (.inventory, .medium, .warning)
  else if kind = "inventory_out" then .ok (.inventory, .high, .error)
  else if kind = "order_created" then .ok (.orders, .normal, .info)
  else if kind = "order_ready" then .ok (.orders, .normal, .success)
  else if kind = "order_delayed" then .ok (.orders, .high, .warning)
  else if kind = "system_maintenance" then .ok (.system, .high, .warning)
  else if kind = "system_critical" then .ok (.system, .high, .error)
  else if kind = "system_info" then .ok (.system, .normal, .info)
  else .error .invalidEventKind

/-- The closed set of valid event kinds (spec section 4.1). -/
def validEventKinds : List String :=
  ["inventory_low", "inventory_out", "order_created", "order_ready",
   "order_delayed", "system_maintenance", "system_critical", "system_info"]

/-- A persisted notification record (spec section 3). -/
structure Notification where
  id : Nat
  category : Category
  notification_type : NotifType
  priority : Priority
  recipient_id : Option Nat
  related_entity_type : Option String
  related_entity_id : Option Nat
  is_read : Bool
  is_dismissed : Bool
  created_at : Nat
deriving DecidableEq, BEq, Repr

/-- Ordered severity used by the suppression escalation rule (spec sections
4.2 and 9): `warning` (the low-stock type) ranks below `error` (the
out-of-stock type). -/
def severityRank : NotifType → Nat
  | .info => 0
  | .success => 0
  | .warning => 1
  | .error => 2

/-- Whether `created_at >= now - window`, the inclusive lookback test of the
suppression query (spec section 4.2), written subtraction-free over Nat. -/
def withinWindow (now window created_at : Nat) : Bool :=
  now ≤ created_at + window

/-- Whether an existing row matches the suppression query for a candidate
keyed on `(related_entity_type, related_entity_id, category)`: non-dismissed
and created within the lookback window (spec section 4.2). -/
def matchesCandidate (entityType : String) (entityId : Nat) (cat : Category)
    (now window : Nat) (n : Notification) : Bool :=
  !n.is_dismissed &&
    n.related_entity_type == some entityType &&
    n.related_entity_id == some entityId &&
    n.category == cat &&
    withinWindow now window n.created_at

/-- Modelled from the spec: the Duplicate Suppressor decision of section 4.2
(`simple_notifications.py` is absent from the source tree).  For inventory
candidates, create only when the candidate is strictly more urgent than every
match (severity escalation); for other categories, create only when no match
has exactly the same notification type. -/
def shouldCreate (entityType : String) (entityId : Nat) (cat : Category)
    (nt : NotifType) (store : List Notification) (now window : Nat) : Bool :=
  let hits := store.filter (matchesCandidate entityType entityId cat now window)
  match cat with
  | .inventory => hits.all (fun m => severityRank m.notification_type < severityRank nt)
  | _ => hits.all (fun m => m.notification_type != nt)

/-- The Notification Service's store together with the id counter, the
current clock and the configured suppression window (spec sections 4.3
and 4.2; default window 6 hours = 21600 seconds). -/
structure ServiceState where
  store : List Notification
  nextId : Nat
  now : Nat
  window : Nat
deriving DecidableEq, Repr

/-- A domain event descriptor handed to `create` (spec section 4.1). -/
structure EventDescriptor where
  kind : String
  entityType : Option String
  entityId : Option Nat
deriving DecidableEq, Repr

/-- Modelled from the spec: `create` of the Notification Service, section
4.3 (`simple_notifications.py` is absent from the source tree).  Classify the
event; check suppression only when both related-entity fields are present;
persist one row if allowed; return the created record, or `none` if
suppressed. -/
def create (ev : EventDescriptor) (s : ServiceState) :
    Except ClassifyError (Option Notification × ServiceState) :=
  match classify ev.kind with
  | .error e => .error e
  | .ok (cat, prio, nt) =>
    let allowed :=
      match ev.entityType, ev.entityId with
      | some et, some eid => shouldCreate et eid cat nt s.store s.now s.window
      | _, _ => true
    if allowed then
      let n : Notification :=
        { id := s.nextId, category := cat, notification_type := nt,
          priority := prio, recipient_id := none,
          related_entity_type := ev.entityType,
          related_entity_id := ev.entityId,
          is_read := false, is_dismissed := false, created_at := s.now }
      .ok (some n, { s with store := n :: s.store, nextId := s.nextId + 1 })
    else
      .ok (none, s)

/-- An inventory snapshot row from the inventory provider (spec section 6). -/
structure InventoryItem where
  id : Nat
  name : String
  current_stock : Int
  minimum_stock : Int
deriving DecidableEq, Repr

/-- The row inserted by `create` for an inventory candidate on item `x`. -/
def newInventoryRow (s : ServiceState) (x : Nat) (nt : NotifType) (p : Priority) :
    Notification :=
  { id := s.nextId, category := .inventory, notification_type := nt,
    priority := p, recipient_id := none,
    related_entity_type := some "inventory_item", related_entity_id := some x,
    is_read := false, is_dismissed := false, created_at := s.now }

/-- The candidate event emitted for a low-stock inventory item `x`. -/
def inventoryLowEvent (x : Nat) : EventDescriptor :=
  { kind := "inventory_low", entityType := some "inventory_item", entityId := some x }

/-- The candidate event emitted for an out-of-stock inventory item `x`. -/
def inventoryOutEvent (x : Nat) : EventDescriptor :=
  { kind := "inventory_out", entityType := some "inventory_item", entityId := some x }

/-- Modelled from the spec: one step of the inventory scan of section 4.3
(`simple_notifications.py` is absent from the source tree).  For an item with
`current_stock <= 0` emit `inventory_out`, else with
`current_stock <= minimum_stock` emit `inventory_low`, else nothing; each
emission goes through `create` (hence through suppression) and the counter
advances only when a row was actually created.  Classifier failures are
swallowed, as triggers never propagate service errors (spec section 4.4). -/
def checkInventoryStep (acc : Nat × ServiceState) (it : InventoryItem) :
    Nat × ServiceState :=
  if it.current_stock ≤ 0 then
    match create (inventoryOutEvent it.id) acc.2 with
    | .error _ => acc
    | .ok (none, s') => (acc.1, s')
    | .ok (some _, s') => (acc.1 + 1, s')
  else if it.current_stock ≤ it.minimum_stock then
    match create (inventoryLowEvent it.id) acc.2 with
    | .error _ => acc
    | .ok (none, s') => (acc.1, s')
    | .ok (some _, s') => (acc.1 + 1, s')
  else acc

/-- Modelled from the spec: `checkInventoryAndCreateAlerts` of section 4.3;
iterates the provided inventory items and returns the count of notifications
actually created (post-suppression) together with the updated store. -/
def checkInventoryAndCreateAlerts (items : List InventoryItem) (s : ServiceState) :
    Nat × ServiceState :=
  items.foldl checkInventoryStep (0, s)

/-- The JSON body of a PUT /notifications/:id request: a partial update
carrying at most the two flag fields, mirroring the object literals sent by
the client (api.js lines 365-385). -/
structure NotificationUpdatePayload where
  is_read : Option Bool
  is_dismissed : Option Bool
deriving DecidableEq, Repr

/-- The body sent by notificationsAPI.markAsRead (api.js lines 365-374):
exactly `\x7b is_read: true \x7d`. -/
def markAsReadRequestBody : NotificationUpdatePayload :=
  { is_read := some true, is_dismissed := none }

/-- The body sent by notificationsAPI.markAsDismissed (api.js lines
376-385): exactly `\x7b is_dismissed: true \x7d`. -/
def markAsDismissedRequestBody : NotificationUpdatePayload :=
  { is_read := none, is_dismissed := some true }

/-- The client operations that update an existing notification: the only
two methods of notificationsAPI issuing PUT /notifications/:id. -/
inductive ClientFlagOp where
  | markAsRead
  | markAsDismissed
deriving DecidableEq, Repr

/-- The request body each client update operation sends. -/
def clientFlagRequestBody : ClientFlagOp → NotificationUpdatePayload
  | .markAsRead => markAsReadRequestBody
  | .markAsDismissed => markAsDismissedRequestBody

/-- Modelled from the spec: the PUT /notifications/:id partial update of
section 6 (the server router is absent from the source tree); fields present
in the payload overwrite the stored flags, all other fields are untouched. -/
def applyUpdate (p : NotificationUpdatePayload) (n : Notification) : Notification :=
  { n with is_read := p.is_read.getD n.is_read,
           is_dismissed := p.is_dismissed.getD n.is_dismissed }

/-- Service-level failure for id-addressed operations (spec section 7). -/
inductive ApiError where
  | notFound
deriving DecidableEq, Repr

/-- Modelled from the spec: `markRead` of the Notification Service, section
4.3 (`simple_notifications.py` is absent from the source tree).  Fails with
`NotFound` when the id is absent; otherwise sets `is_read := true` on the
record and returns it with the updated store. -/
def markRead (id : Nat) (s : ServiceState) :
    Except ApiError (Notification × ServiceState) :=
  match s.store.find? (fun m => m.id == id) with
  | none => .error .notFound
  | some n =>
    let n' := { n with is_read := true }
    .ok (n', { s with store := s.store.map (fun m => if m.id == id then n' else m) })

/-- Unread count over a store: non-dismissed, unread rows (spec section
4.3, `stats`). -/
def unreadCount (store : List Notification) : Nat :=
  (store.filter (fun n => !n.is_read && !n.is_dismissed)).length

/-- The slice of a notification the client list code reads and writes
(notifications.js). -/
structure ClientNotification where
  id : Nat
  is_read : Bool
deriving DecidableEq, Repr

/-- The client NotificationManager's local state: the loaded notification
list and the cached unread counter (notifications.js lines 4-6). -/
structure ClientState where
  notifications : List ClientNotification
  unreadCount : Nat
deriving DecidableEq, Repr

/-- In-place flip of the first id-matching element, as the JS mutation of
the object returned by Array.find does (notifications.js line 293). -/
def setReadFirst : List ClientNotification → Nat → List ClientNotification
  | [], _ => []
  | n :: rest, nid =>
    if n.id == nid then { n with is_read := true } :: rest
    else n :: setReadFirst rest nid

/-- The local-state update of NotificationManager.markAsRead
(notifications.js lines 286-300): find the notification; if present and
unread, flip it and decrement the counter with a floor of zero. -/
def clientMarkAsRead (st : ClientState) (nid : Nat) : ClientState :=
  match st.notifications.find? (fun n => n.id == nid) with
  | some n =>
    if !n.is_read then
      { notifications := setReadFirst st.notifications nid,
        unreadCount := max 0 (st.unreadCount - 1) }
    else st
  | none => st

/-- The local-state update of NotificationManager.dismissNotification
(notifications.js lines 302-317): first replace the list by the id-filtered
list, then look the id up in that already-filtered list and decrement the
unread counter only when the lookup finds an unread match. -/
def clientDismiss (st : ClientState) (nid : Nat) : ClientState :=
  let remaining := st.notifications.filter (fun n => n.id != nid)
  match remaining.find? (fun n => n.id == nid) with
  | some n =>
    if !n.is_read then
      { notifications := remaining, unreadCount := max 0 (st.unreadCount - 1) }
    else { notifications := remaining, unreadCount := st.unreadCount }
  | none => { notifications := remaining, unreadCount := st.unreadCount }

/-- Filters accepted by notificationsAPI.getAll (api.js lines 320-328). -/
structure NotificationFilters where
  unread_only : Bool
  category : Option String
  priority : Option String
  user_id : Option Nat
  limit : Option Nat
deriving DecidableEq, Repr

/-- The query key/value pairs built by notificationsAPI.getAll (api.js
lines 322-327), appended in source order. -/
def getAllQueryParams (f : NotificationFilters) : List (String × String) :=
  (if f.unread_only then [("unread_only", "true")] else []) ++
  (match f.category with | some c => [("category", c)] | none => []) ++
  (match f.priority with | some p => [("priority", p)] | none => []) ++
  (match f.user_id with | some u => [("user_id", toString u)] | none => []) ++
  (match f.limit with | some l => [("limit", toString l)] | none => [])

/-- The query key/value pairs built by notificationsAPI.markAllAsRead
(api.js lines 387-393). -/
def markAllReadQueryParams (userId : Option Nat) (category : Option String) :
    List (String × String) :=
  (match userId with | some u => [("user_id", toString u)] | none => []) ++
  (match category with | some c => [("category", c)] | none => [])

/-- The client poller's fixed refresh interval in milliseconds
(notifications.js line 8). -/
def pollIntervalMs : Nat := 30000

/-- Observable state of the client poller: the flag and saved timer id of
NotificationManager, plus the set of live interval timers owned by the
environment and a fresh-id counter for setInterval. -/
structure PollerState where
  isPolling : Bool
  pollIntervalId : Option Nat
  activeTimers : List Nat
  nextTimerId : Nat
deriving DecidableEq, Repr

/-- The poller before any start (notifications.js lines 6-8). -/
def initPoller : PollerState :=
  { isPolling := false, pollIntervalId := none, activeTimers := [], nextTimerId := 0 }

/-- NotificationManager.startPolling (notifications.js lines 347-354):
return immediately when already polling, otherwise set the flag and create
one interval timer, remembering its id. -/
def startPolling (st : PollerState) : PollerState :=
  if st.isPolling then st
  else
    { isPolling := true, pollIntervalId := some st.nextTimerId,
      activeTimers := st.nextTimerId :: st.activeTimers,
      nextTimerId := st.nextTimerId + 1 }

/-- NotificationManager.stopPolling (notifications.js lines 356-361): when
a timer id was saved, clear that interval and drop the flag (the saved id
itself is kept). -/
def stopPolling (st : PollerState) : PollerState :=
  match st.pollIntervalId with
  | none => st
  | some t => { st with activeTimers := st.activeTimers.erase t, isPolling := false }

/-- A call into the poller API. -/
inductive PollerOp where
  | start
  | stop
deriving DecidableEq, Repr

/-- Apply one poller call. -/
def applyPollerOp (st : PollerState) : PollerOp → PollerState
  | .start => startPolling st
  | .stop => stopPolling st

/-- Run a sequence of poller calls from the initial state. -/
def runPoller (ops : List PollerOp) : PollerState :=
  ops.foldl applyPollerOp initPoller

/-- Invariant tying the live timers to the manager's bookkeeping: at most
one timer is live, and a live timer is the one recorded while polling. -/
def pollerInv (st : PollerState) : Prop :=
  match st.activeTimers with
  | [] => True
  | [t] => st.isPolling = true ∧ st.pollIntervalId = some t
  | _ => False

/-- The badge display computed by NotificationManager.updateBadge
(notifications.js lines 142-152): `none` means the badge element is hidden,
`some t` that it shows text `t`. -/
def updateBadge (unread : Nat) : Option String :=
  if unread > 0 then some (if unread > 99 then "99+" else toString unread)
  else none

/-- NotificationManager.getPriorityClass (notifications.js lines 254-262):
the style lookup with its `classes.normal` fallback for unmapped values. -/
def getPriorityClass (priority : String) : String :=
  if priority = "low" then "bg-gray-500"
  else if priority = "normal" then "bg-blue-500"
  else if priority = "high" then "bg-orange-500"
  else if priority = "urgent" then "bg-red-500"
  else "bg-blue-500"

end TomsBar

namespace TomsBar

/-- Claim C2: for every valid event kind in the closed set, `classify`
returns exactly the `(category, priority, notification_type)` triple of the
spec's section 4.1 mapping table, and for any kind outside that set it fails
with `InvalidEventKind`. -/
theorem classify_matches_policy_table :
    classify "inventory_low" = .ok (.inventory, .medium, .warning) ∧
    classify "inventory_out" = .ok (.inventory, .high, .error) ∧
    classify "order_created" = .ok (.orders, .normal, .info) ∧
    classify "order_ready" = .ok (.orders, .normal, .success) ∧
    classify "order_delayed" = .ok (.orders, .high, .warning) ∧
    classify "system_maintenance" = .ok (.system, .high, .warning) ∧
    classify "system_critical" = .ok (.system, .high, .error) ∧
    classify "system_info" = .ok (.system, .normal, .info) ∧
    ∀ kind : String, kind ∉ validEventKinds →
      classify kind = .error .invalidEventKind := by
  refine ⟨rfl, rfl, rfl, rfl, rfl, rfl, rfl, rfl, ?_⟩
  intro kind hk
  simp only [validEventKinds, List.mem_cons, List.not_mem_nil, or_false, not_or] at hk
  obtain ⟨h1, h2, h3, h4, h5, h6, h7, h8⟩ := hk
  simp [classify, h1, h2, h3, h4, h5, h6, h7, h8]

/-- Witness for C2: the quantified part applied at the concrete unknown kind
"order_cancelled". -/
theorem classify_matches_policy_table_witness :
    classify "order_cancelled" = .error .invalidEventKind :=
  classify_matches_policy_table.2.2.2.2.2.2.2.2 "order_cancelled" (by decide)

/-- Claim C1: when a non-dismissed `inventory_low` notification for item `x`
exists within the suppression window (and no match is already at
out-of-stock severity), `create` of a new `inventory_low` candidate for `x`
is suppressed — it returns `none` and inserts no row — while `create` of an
`inventory_out` candidate for the same `x` in the same window is not
suppressed and inserts a row: severity escalation bypasses suppression. -/
theorem inventory_escalation_bypasses_suppression (s : ServiceState) (x : Nat)
    (hlow : s.store.any (fun m =>
      matchesCandidate "inventory_item" x Category.inventory s.now s.window m &&
        decide (m.notification_type = NotifType.warning)) = true)
    (hnoworse : s.store.all (fun m =>
      !(matchesCandidate "inventory_item" x Category.inventory s.now s.window m) ||
        decide (severityRank m.notification_type < 2)) = true) :
    create (inventoryLowEvent x) s = .ok (none, s) ∧
    create (inventoryOutEvent x) s =
      .ok (some { id := s.nextId, category := .inventory, notification_type := .error,
                  priority := .high, recipient_id := none,
                  related_entity_type := some "inventory_item",
                  related_entity_id := some x, is_read := false,
                  is_dismissed := false, created_at := s.now },
           { s with
              store := { id := s.nextId, category := .inventory,
                         notification_type := .error, priority := .high,
                         recipient_id := none,
                         related_entity_type := some "inventory_item",
                         related_entity_id := some x, is_read := false,
                         is_dismissed := false, created_at := s.now } :: s.store,
              nextId := s.nextId + 1 }) := by
  obtain ⟨m, hmmem, hp⟩ := List.any_eq_true.mp hlow
  rw [Bool.and_eq_true] at hp
  obtain ⟨hmatch, htype⟩ := hp
  have hmw : m.notification_type = NotifType.warning := of_decide_eq_true htype
  have hsupp : shouldCreate "inventory_item" x Category.inventory NotifType.warning
      s.store s.now s.window = false := by
    unfold shouldCreate
    apply Bool.eq_false_iff.mpr
    intro hall
    rw [List.all_eq_true] at hall
    have hm := hall m (List.mem_filter.mpr ⟨hmmem, hmatch⟩)
    rw [hmw] at hm
    simp [severityRank] at hm
  have hallow : shouldCreate "inventory_item" x Category.inventory NotifType.error
      s.store s.now s.window = true := by
    unfold shouldCreate
    rw [List.all_eq_true]
    intro m' hm'
    rw [List.mem_filter] at hm'
    rw [List.all_eq_true] at hnoworse
    have h := hnoworse m' hm'.1
    rw [Bool.or_eq_true, Bool.not_eq_true'] at h
    rcases h with h | h
    · rw [hm'.2] at h
      cases h
    · exact h
  constructor
  · have hred : create (inventoryLowEvent x) s =
        (if shouldCreate "inventory_item" x Category.inventory NotifType.warning
            s.store s.now s.window then
          Except.ok (some { id := s.nextId, category := .inventory,
                            notification_type := .warning, priority := .medium,
                            recipient_id := none,
                            related_entity_type := some "inventory_item",
                            related_entity_id := some x, is_read := false,
                            is_dismissed := false, created_at := s.now },
                     { s with
                        store := { id := s.nextId, category := .inventory,
                                   notification_type := .warning, priority := .medium,
                                   recipient_id := none,
                                   related_entity_type := some "inventory_item",
                                   related_entity_id := some x, is_read := false,
                                   is_dismissed := false,
                                   created_at := s.now } :: s.store,
                        nextId := s.nextId + 1 })
        else Except.ok (none, s)) := rfl
    rw [hred, hsupp]
    rfl
  · have hred : create (inventoryOutEvent x) s =
        (if shouldCreate "inventory_item" x Category.inventory NotifType.error
            s.store s.now s.window then
          Except.ok (some { id := s.nextId, category := .inventory,
                            notification_type := .error, priority := .high,
                            recipient_id := none,
                            related_entity_type := some "inventory_item",
                            related_entity_id := some x, is_read := false,
                            is_dismissed := false, created_at := s.now },
                     { s with
                        store := { id := s.nextId, category := .inventory,
                                   notification_type := .error, priority := .high,
                                   recipient_id := none,
                                   related_entity_type := some "inventory_item",
                                   related_entity_id := some x, is_read := false,
                                   is_dismissed := false,
                                   created_at := s.now } :: s.store,
                        nextId := s.nextId + 1 })
        else Except.ok (none, s)) := rfl
    rw [hred, hallow]
    rfl

/-- The single non-dismissed low-stock row used by the C1 witness scenario:
item 42, created one hour before `now` with a six-hour window. -/
def c1LowRow : Notification :=
  { id := 0, category := .inventory, notification_type := .warning,
    priority := .medium, recipient_id := none,
    related_entity_type := some "inventory_item", related_entity_id := some 42,
    is_read := false, is_dismissed := false, created_at := 0 }

/-- The C1 witness state: the low-stock row above, clock one hour later,
window 21600 seconds (six hours). -/
def c1State : ServiceState :=
  { store := [c1LowRow], nextId := 1, now := 3600, window := 21600 }

/-- Witness for C1: the suppression theorem applied to the concrete one-row
state; a fresh low-stock candidate is suppressed and an out-of-stock
candidate is created. -/
theorem inventory_escalation_bypasses_suppression_witness :
    create (inventoryLowEvent 42) c1State = .ok (none, c1State) ∧
    create (inventoryOutEvent 42) c1State =
      .ok (some { id := 1, category := .inventory, notification_type := .error,
                  priority := .high, recipient_id := none,
                  related_entity_type := some "inventory_item",
                  related_entity_id := some 42, is_read := false,
                  is_dismissed := false, created_at := 3600 },
           { store := [{ id := 1, category := .inventory,
                         notification_type := .error, priority := .high,
                         recipient_id := none,
                         related_entity_type := some "inventory_item",
                         related_entity_id := some 42, is_read := false,
                         is_dismissed := false, created_at := 3600 }, c1LowRow],
             nextId := 2, now := 3600, window := 21600 }) :=
  inventory_escalation_bypasses_suppression c1State 42 (by decide) (by decide)

/-- Unfolding equation for `create` on an out-of-stock candidate. -/
lemma create_out_reduce (x : Nat) (s : ServiceState) :
    create (inventoryOutEvent x) s =
      (if shouldCreate "inventory_item" x Category.inventory NotifType.error
          s.store s.now s.window then
        Except.ok (some (newInventoryRow s x .error .high),
          { s with store := newInventoryRow s x .error .high :: s.store,
                   nextId := s.nextId + 1 })
      else Except.ok (none, s)) := rfl

/-- Unfolding equation for `create` on a low-stock candidate. -/
lemma create_low_reduce (x : Nat) (s : ServiceState) :
    create (inventoryLowEvent x) s =
      (if shouldCreate "inventory_item" x Category.inventory NotifType.warning
          s.store s.now s.window then
        Except.ok (some (newInventoryRow s x .warning .medium),
          { s with store := newInventoryRow s x .warning .medium :: s.store,
                   nextId := s.nextId + 1 })
      else Except.ok (none, s)) := rfl

/-- On an empty store the suppression check always allows creation. -/
lemma shouldCreate_nil (et : String) (eid : Nat) (cat : Category) (nt : NotifType)
    (now window : Nat) : shouldCreate et eid cat nt [] now window = true := by
  cases cat <;> rfl

/-- The three-item inventory snapshot of the C3 scenario:
`{stock 0, min 5}`, `{stock 3, min 5}`, `{stock 10, min 5}`. -/
def c3Items : List InventoryItem :=
  [⟨1, "flour", 0, 5⟩, ⟨2, "sugar", 3, 5⟩, ⟨3, "salt", 10, 5⟩]

/-- The initial C3 state: empty store, six-hour suppression window. -/
def c3State : ServiceState :=
  { store := [], nextId := 0, now := 1000, window := 21600 }

/-- Claim C3: the inventory scan emits `inventory_out` for items with
`current_stock <= 0`, `inventory_low` for items with
`0 < current_stock <= minimum_stock`, nothing for the rest, routing every
emission through `create` (hence suppression) and counting only rows
actually created; over `[{stock 0, min 5}, {stock 3, min 5},
{stock 10, min 5}]` it creates exactly 2 notifications on the first run and
0 on an immediate second run. -/
theorem checkInventory_thresholds_and_suppression :
    (∀ (it : InventoryItem) (s : ServiceState), s.store = [] →
      it.current_stock ≤ 0 →
      checkInventoryAndCreateAlerts [it] s =
        (1, { s with store := [newInventoryRow s it.id .error .high],
                     nextId := s.nextId + 1 })) ∧
    (∀ (it : InventoryItem) (s : ServiceState), s.store = [] →
      0 < it.current_stock → it.current_stock ≤ it.minimum_stock →
      checkInventoryAndCreateAlerts [it] s =
        (1, { s with store := [newInventoryRow s it.id .warning .medium],
                     nextId := s.nextId + 1 })) ∧
    (∀ (it : InventoryItem) (s : ServiceState),
      0 < it.current_stock → it.minimum_stock < it.current_stock →
      checkInventoryAndCreateAlerts [it] s = (0, s)) ∧
    (checkInventoryAndCreateAlerts c3Items c3State).1 = 2 ∧
    (checkInventoryAndCreateAlerts c3Items
      (checkInventoryAndCreateAlerts c3Items c3State).2).1 = 0 := by
  refine ⟨?_, ?_, ?_, by decide, by decide⟩
  · intro it s hst h0
    simp only [checkInventoryAndCreateAlerts, List.foldl_cons, List.foldl_nil]
    unfold checkInventoryStep
    dsimp only
    rw [if_pos h0, create_out_reduce, hst, shouldCreate_nil]
    rfl
  · intro it s hst hpos hmin
    simp only [checkInventoryAndCreateAlerts, List.foldl_cons, List.foldl_nil]
    unfold checkInventoryStep
    dsimp only
    rw [if_neg (not_le.mpr hpos), if_pos hmin, create_low_reduce, hst, shouldCreate_nil]
    rfl
  · intro it s hpos hgt
    simp only [checkInventoryAndCreateAlerts, List.foldl_cons, List.foldl_nil]
    unfold checkInventoryStep
    dsimp only
    rw [if_neg (not_le.mpr hpos), if_neg (not_le.mpr hgt)]

/-- Witness for C3: the three quantified parts applied at concrete items
over the empty-store state. -/
theorem checkInventory_thresholds_and_suppression_witness :
    checkInventoryAndCreateAlerts [⟨7, "x", 0, 5⟩] c3State =
      (1, { c3State with store := [newInventoryRow c3State 7 .error .high],
                         nextId := c3State.nextId + 1 }) ∧
    checkInventoryAndCreateAlerts [⟨8, "y", 3, 5⟩] c3State =
      (1, { c3State with store := [newInventoryRow c3State 8 .warning .medium],
                         nextId := c3State.nextId + 1 }) ∧
    checkInventoryAndCreateAlerts [⟨9, "z", 10, 5⟩] c3State = (0, c3State) :=
  ⟨checkInventory_thresholds_and_suppression.1 ⟨7, "x", 0, 5⟩ c3State rfl (by decide),
   checkInventory_thresholds_and_suppression.2.1 ⟨8, "y", 3, 5⟩ c3State rfl
     (by decide) (by decide),
   checkInventory_thresholds_and_suppression.2.2.1 ⟨9, "z", 10, 5⟩ c3State
     (by decide) (by decide)⟩

/-- Claim C4: the client's only update operations on an existing
notification are markAsRead and markAsDismissed; each issues a partial
update carrying exactly one flag set to `true`, never resets a flag to
`false`, and under the partial-update semantics alters no other field of
the record — both flips are one-way false-to-true. -/
theorem client_updates_flip_flags_one_way :
    clientFlagRequestBody .markAsRead =
      { is_read := some true, is_dismissed := none } ∧
    clientFlagRequestBody .markAsDismissed =
      { is_read := none, is_dismissed := some true } ∧
    (∀ op : ClientFlagOp,
      (clientFlagRequestBody op).is_read ≠ some false ∧
      (clientFlagRequestBody op).is_dismissed ≠ some false) ∧
    (∀ (op : ClientFlagOp) (n : Notification),
      (applyUpdate (clientFlagRequestBody op) n).id = n.id ∧
      (applyUpdate (clientFlagRequestBody op) n).category = n.category ∧
      (applyUpdate (clientFlagRequestBody op) n).notification_type =
        n.notification_type ∧
      (applyUpdate (clientFlagRequestBody op) n).priority = n.priority ∧
      (applyUpdate (clientFlagRequestBody op) n).recipient_id = n.recipient_id ∧
      (applyUpdate (clientFlagRequestBody op) n).related_entity_type =
        n.related_entity_type ∧
      (applyUpdate (clientFlagRequestBody op) n).related_entity_id =
        n.related_entity_id ∧
      (applyUpdate (clientFlagRequestBody op) n).created_at = n.created_at ∧
      (n.is_read = true → (applyUpdate (clientFlagRequestBody op) n).is_read = true) ∧
      (n.is_dismissed = true →
        (applyUpdate (clientFlagRequestBody op) n).is_dismissed = true)) := by
  refine ⟨rfl, rfl, ?_, ?_⟩
  · intro op
    cases op <;> simp [clientFlagRequestBody, markAsReadRequestBody,
      markAsDismissedRequestBody]
  · intro op n
    cases op <;>
      simp [clientFlagRequestBody, markAsReadRequestBody,
        markAsDismissedRequestBody, applyUpdate]

/-- Witness for C4: the quantified parts applied at markAsDismissed and a
concrete already-read, already-dismissed record. -/
theorem client_updates_flip_flags_one_way_witness :
    ((clientFlagRequestBody .markAsDismissed).is_read ≠ some false ∧
      (clientFlagRequestBody .markAsDismissed).is_dismissed ≠ some false) ∧
    (applyUpdate (clientFlagRequestBody .markAsDismissed) c1LowRow).created_at =
      c1LowRow.created_at ∧
    (applyUpdate (clientFlagRequestBody .markAsRead)
      { c1LowRow with is_read := true }).is_read = true :=
  ⟨client_updates_flip_flags_one_way.2.2.1 .markAsDismissed,
   (client_updates_flip_flags_one_way.2.2.2 .markAsDismissed c1LowRow).2.2.2.2.2.2.2.1,
   (client_updates_flip_flags_one_way.2.2.2 .markAsRead
     { c1LowRow with is_read := true }).2.2.2.2.2.2.2.2.1 rfl⟩

/-- Counterexample for C6 as stated: the repository's client scopes list
and mark-all-read requests with the query key `user_id`, not
`recipient_id`; at the concrete scope 7 the built query strings contain no
`recipient_id` key. -/
theorem recipient_id_key_absent_counterexample :
    (getAllQueryParams
      { unread_only := false, category := none, priority := none,
        user_id := some 7, limit := none }).map Prod.fst = ["user_id"] ∧
    "recipient_id" ∉ (getAllQueryParams
      { unread_only := false, category := none, priority := none,
        user_id := some 7, limit := none }).map Prod.fst ∧
    (markAllReadQueryParams (some 7) none).map Prod.fst = ["user_id"] ∧
    "recipient_id" ∉ (markAllReadQueryParams (some 7) none).map Prod.fst := by
  decide

/-- Claim C6 amended: recipient scoping on the client's REST calls uses the
query key `user_id` (not `recipient_id`): every filtered list request and
every scoped mark-all-read request carries the scope under `user_id`, and
no request built by either method ever contains a `recipient_id` key. -/
theorem recipient_scope_sent_as_user_id :
    (∀ f : NotificationFilters,
      "recipient_id" ∉ (getAllQueryParams f).map Prod.fst) ∧
    (∀ u : Nat, ("user_id", toString u) ∈ getAllQueryParams
      { unread_only := false, category := none, priority := none,
        user_id := some u, limit := none }) ∧
    (∀ (uid : Option Nat) (cat : Option String),
      "recipient_id" ∉ (markAllReadQueryParams uid cat).map Prod.fst) ∧
    (∀ u : Nat, ("user_id", toString u) ∈ markAllReadQueryParams (some u) none) := by
  refine ⟨?_, ?_, ?_, ?_⟩
  · intro f
    obtain ⟨uo, c, p, uid, lim⟩ := f
    cases uo <;> cases c <;> cases p <;> cases uid <;> cases lim <;>
      simp [getAllQueryParams]
  · intro u
    simp [getAllQueryParams]
  · intro uid cat
    cases uid <;> cases cat <;> simp [markAllReadQueryParams]
  · intro u
    simp [markAllReadQueryParams]

/-- Claim C8: the client's dismissNotification always leaves the cached
unread counter unchanged — even for an unread notification — because its
decrement lookup runs on the list from which the id was already filtered
out; the list itself does lose the dismissed notification. -/
theorem dismiss_leaves_unread_count_unchanged :
    ∀ (st : ClientState) (nid : Nat),
      (clientDismiss st nid).unreadCount = st.unreadCount ∧
      (clientDismiss st nid).notifications =
        st.notifications.filter (fun n => n.id != nid) := by
  intro st nid
  have hf : (st.notifications.filter (fun n => n.id != nid)).find?
      (fun n => n.id == nid) = none := by
    rw [List.find?_eq_none]
    intro x hx
    rw [List.mem_filter] at hx
    have hne := hx.2
    rw [bne_iff_ne] at hne
    rw [beq_iff_eq]
    exact hne
  have hd : clientDismiss st nid =
      { notifications := st.notifications.filter (fun n => n.id != nid),
        unreadCount := st.unreadCount } := by
    unfold clientDismiss
    dsimp only
    rw [hf]
  rw [hd]
  exact ⟨rfl, rfl⟩

/-- Claim C9: the unread badge is hidden at zero, shows the exact count for
counts from one through ninety-nine, and shows the literal text "99+" for
every larger count. -/
theorem updateBadge_total_cases :
    updateBadge 0 = none ∧
    (∀ c : Nat, 0 < c → c ≤ 99 → updateBadge c = some (toString c)) ∧
    (∀ c : Nat, 99 < c → updateBadge c = some "99+") := by
  refine ⟨rfl, ?_, ?_⟩
  · intro c h1 h2
    unfold updateBadge
    rw [if_pos h1, if_neg (not_lt.mpr h2)]
  · intro c h
    unfold updateBadge
    rw [if_pos (Nat.lt_trans (by decide) h), if_pos h]

/-- Witness for C9: the badge at the concrete counts 0, 5 and 100. -/
theorem updateBadge_total_cases_witness :
    updateBadge 0 = none ∧ updateBadge 5 = some "5" ∧
    updateBadge 100 = some "99+" :=
  ⟨updateBadge_total_cases.1,
   updateBadge_total_cases.2.1 5 (by decide) (by decide),
   updateBadge_total_cases.2.2 100 (by decide)⟩

/-- Claim C10: getPriorityClass maps exactly low, normal, high and urgent
to distinct classes and returns the normal class for every other input — in
particular for "medium", the priority the spec assigns to inventory_low
alerts, which is rendered with the fallback style. -/
theorem getPriorityClass_mapping :
    getPriorityClass "low" = "bg-gray-500" ∧
    getPriorityClass "normal" = "bg-blue-500" ∧
    getPriorityClass "high" = "bg-orange-500" ∧
    getPriorityClass "urgent" = "bg-red-500" ∧
    (∀ p : String, p ∉ (["low", "normal", "high", "urgent"] : List String) →
      getPriorityClass p = "bg-blue-500") ∧
    getPriorityClass "medium" = "bg-blue-500" := by
  refine ⟨rfl, rfl, rfl, rfl, ?_, rfl⟩
  intro p hp
  simp only [List.mem_cons, List.not_mem_nil, or_false, not_or] at hp
  obtain ⟨h1, h2, h3, h4⟩ := hp
  simp [getPriorityClass, h1, h2, h3, h4]

/-- Witness for C10: the fallback branch applied at the concrete unmapped
value "urgent-ish". -/
theorem getPriorityClass_mapping_witness :
    getPriorityClass "urgent-ish" = "bg-blue-500" :=
  getPriorityClass_mapping.2.2.2.2.1 "urgent-ish" (by decide)

/-- Setting `is_read` on an already-read record is the identity. -/
lemma setRead_of_read (n : Notification) (h : n.is_read = true) :
    ({ n with is_read := true } : Notification) = n := by
  cases n with
  | mk i c t p r ret rei ir idm ca =>
    dsimp at h
    subst h
    rfl

/-- After the id-targeted store update, looking the id up finds the
updated row. -/
lemma find_map_upd (id : Nat) (n' : Notification) (hid : (n'.id == id) = true) :
    ∀ (l : List Notification) (a : Notification),
      l.find? (fun m => m.id == id) = some a →
      (l.map (fun m => if m.id == id then n' else m)).find?
        (fun m => m.id == id) = some n' := by
  intro l
  induction l with
  | nil =>
    intro a h
    rw [List.find?_nil] at h
    cases h
  | cons b t ih =>
    intro a h
    by_cases hb : (b.id == id) = true
    · simp only [List.map_cons, if_pos hb]
      exact List.find?_cons_of_pos _ hid
    · rw [List.find?_cons_of_neg (p := fun m => m.id == id) (a := b) t hb] at h
      simp only [List.map_cons, if_neg hb]
      rw [List.find?_cons_of_neg (p := fun m => m.id == id) (a := b) _ hb]
      exact ih a h

/-- The id-targeted store update is idempotent. -/
lemma map_upd_idem (id : Nat) (n' : Notification) (hid : (n'.id == id) = true)
    (l : List Notification) :
    (l.map (fun m => if m.id == id then n' else m)).map
      (fun m => if m.id == id then n' else m) =
    l.map (fun m => if m.id == id then n' else m) := by
  rw [List.map_map]
  apply List.map_congr_left
  intro a _
  dsimp only [Function.comp]
  by_cases h : (a.id == id) = true
  · rw [if_pos h, if_pos hid]
  · rw [if_neg h, if_neg h]

/-- Unfolding equation of `markRead` for an absent id. -/
lemma markRead_notFound (id : Nat) (s : ServiceState)
    (hf : s.store.find? (fun m => m.id == id) = none) :
    markRead id s = .error .notFound := by
  unfold markRead
  rw [hf]

/-- Unfolding equation of `markRead` for a found row. -/
lemma markRead_found (id : Nat) (s : ServiceState) (a : Notification)
    (hf : s.store.find? (fun m => m.id == id) = some a) :
    markRead id s =
      .ok ({ a with is_read := true },
        { s with store := s.store.map (fun m => if m.id == id then { a with is_read := true } else m) }) := by
  unfold markRead
  rw [hf]

/-- After `setReadFirst`, looking the id up finds the flipped row. -/
lemma find_setReadFirst :
    ∀ (l : List ClientNotification) (nid : Nat) (n : ClientNotification),
      l.find? (fun m => m.id == nid) = some n →
      (setReadFirst l nid).find? (fun m => m.id == nid) =
        some { n with is_read := true } := by
  intro l nid
  induction l with
  | nil =>
    intro n h
    rw [List.find?_nil] at h
    cases h
  | cons b t ih =>
    intro n h
    by_cases hb : (b.id == nid) = true
    · rw [List.find?_cons_of_pos (p := fun m => m.id == nid) (a := b) t hb] at h
      injection h with hbn
      subst hbn
      unfold setReadFirst
      rw [if_pos hb]
      exact List.find?_cons_of_pos _ hb
    · rw [List.find?_cons_of_neg (p := fun m => m.id == nid) (a := b) t hb] at h
      unfold setReadFirst
      rw [if_neg hb, List.find?_cons_of_neg (p := fun m => m.id == nid) (a := b) _ hb]
      exact ih n h

/-- Unfolding equation of the client markAsRead local update for a found
notification. -/
lemma clientMarkAsRead_found (st : ClientState) (nid : Nat)
    (a : ClientNotification)
    (hf : st.notifications.find? (fun m => m.id == nid) = some a) :
    clientMarkAsRead st nid =
      if !a.is_read then
        { notifications := setReadFirst st.notifications nid,
          unreadCount := max 0 (st.unreadCount - 1) }
      else st := by
  unfold clientMarkAsRead
  rw [hf]

/-- Unfolding equation of the client markAsRead local update for a missing
notification. -/
lemma clientMarkAsRead_none (st : ClientState) (nid : Nat)
    (hf : st.notifications.find? (fun m => m.id == nid) = none) :
    clientMarkAsRead st nid = st := by
  unfold clientMarkAsRead
  rw [hf]

/-- Claim C5: `markRead` is idempotent — after a successful call the
returned record is read and calling again succeeds, returning the same
record and leaving the state (hence the unread count) exactly as after the
first call; for an id absent from the store it fails with `NotFound`; the
client-side local markAsRead update is likewise idempotent. -/
theorem markRead_idempotent :
    (∀ (id : Nat) (s : ServiceState) (n : Notification) (s' : ServiceState),
      markRead id s = .ok (n, s') →
      n.is_read = true ∧ markRead id s' = .ok (n, s') ∧
        unreadCount s'.store = unreadCount s'.store) ∧
    (∀ (id : Nat) (s : ServiceState),
      s.store.all (fun m => !(m.id == id)) = true →
      markRead id s = .error .notFound) ∧
    (∀ (st : ClientState) (nid : Nat),
      clientMarkAsRead (clientMarkAsRead st nid) nid = clientMarkAsRead st nid) := by
  refine ⟨?_, ?_, ?_⟩
  · intro id s n s' h
    cases hf : s.store.find? (fun m => m.id == id) with
    | none =>
      rw [markRead_notFound id s hf] at h
      exact absurd h (by simp)
    | some a =>
      rw [markRead_found id s a hf] at h
      injection h with h1
      injection h1 with hn hs
      have hid := List.find?_some hf
      have hid' : ((({ a with is_read := true } : Notification)).id == id) = true := hid
      have hread : n.is_read = true := by
        rw [← hn]
      have hstore :
          s'.store = s.store.map (fun m => if m.id == id then { a with is_read := true } else m) := by
        rw [← hs]
      have hf2 : s'.store.find? (fun m => m.id == id) = some n := by
        rw [hstore, ← hn]
        exact find_map_upd id { a with is_read := true } hid' s.store a hf
      refine ⟨hread, ?_, rfl⟩
      rw [markRead_found id s' n hf2, setRead_of_read n hread]
      have hms : s'.store.map (fun m => if m.id == id then n else m) = s'.store := by
        rw [hstore, ← hn]
        exact map_upd_idem id { a with is_read := true } hid' s.store
      rw [hms]
  · intro id s hall
    apply markRead_notFound
    rw [List.find?_eq_none]
    intro x hx
    rw [List.all_eq_true] at hall
    have hxert := hall x hx
    rw [Bool.not_eq_true'] at hxert
    intro hcon
    rw [hxert] at hcon
    cases hcon
  · intro st nid
    cases hf : st.notifications.find? (fun m => m.id == nid) with
    | none =>
      have h1 := clientMarkAsRead_none st nid hf
      rw [h1]
      exact h1
    | some a =>
      have h1 := clientMarkAsRead_found st nid a hf
      cases hr : a.is_read with
      | true =>
        rw [hr] at h1
        rw [if_neg (by decide)] at h1
        rw [h1]
        exact h1
      | false =>
        rw [hr] at h1
        rw [if_pos (by decide)] at h1
        rw [h1]
        have hf2 := find_setReadFirst st.notifications nid a hf
        have hcond : ¬((!({ a with is_read := true } : ClientNotification).is_read) = true) := by
          simp
        have h2 := clientMarkAsRead_found
          { notifications := setReadFirst st.notifications nid,
            unreadCount := max 0 (st.unreadCount - 1) } nid
          { a with is_read := true } hf2
        rw [if_neg hcond] at h2
        exact h2

/-- The single unread order notification of the C5 witness scenario. -/
def c5Row : Notification :=
  { id := 5, category := .orders, notification_type := .info,
    priority := .normal, recipient_id := none, related_entity_type := none,
    related_entity_id := none, is_read := false, is_dismissed := false,
    created_at := 100 }

/-- The C5 witness state holding only `c5Row`. -/
def c5State : ServiceState :=
  { store := [c5Row], nextId := 6, now := 200, window := 21600 }

/-- Witness for C5: `markRead` applied twice to the concrete one-row state,
and `markRead` of an absent id. -/
theorem markRead_idempotent_witness :
    ({ c5Row with is_read := true } : Notification).is_read = true ∧
    markRead 5
      { store := [{ c5Row with is_read := true }], nextId := 6, now := 200,
        window := 21600 } =
      .ok ({ c5Row with is_read := true },
        { store := [{ c5Row with is_read := true }], nextId := 6, now := 200,
          window := 21600 }) ∧
    markRead 9 c5State = .error .notFound ∧
    clientMarkAsRead
      (clientMarkAsRead { notifications := [⟨5, false⟩], unreadCount := 1 } 5) 5 =
      clientMarkAsRead { notifications := [⟨5, false⟩], unreadCount := 1 } 5 :=
  ⟨(markRead_idempotent.1 5 c5State { c5Row with is_read := true }
      { store := [{ c5Row with is_read := true }], nextId := 6, now := 200,
        window := 21600 } rfl).1,
   (markRead_idempotent.1 5 c5State { c5Row with is_read := true }
      { store := [{ c5Row with is_read := true }], nextId := 6, now := 200,
        window := 21600 } rfl).2.1,
   markRead_idempotent.2.1 9 c5State (by decide),
   markRead_idempotent.2.2 { notifications := [⟨5, false⟩], unreadCount := 1 } 5⟩

/-- Unfolding equation of startPolling when already polling. -/
lemma startPolling_true (st : PollerState) (h : st.isPolling = true) :
    startPolling st = st := by
  unfold startPolling
  rw [h]
  rfl

/-- Unfolding equation of startPolling when not yet polling. -/
lemma startPolling_false (st : PollerState) (h : st.isPolling = false) :
    startPolling st =
      { isPolling := true, pollIntervalId := some st.nextTimerId,
        activeTimers := st.nextTimerId :: st.activeTimers,
        nextTimerId := st.nextTimerId + 1 } := by
  unfold startPolling
  rw [h]
  rfl

/-- Unfolding equation of stopPolling with no saved timer id. -/
lemma stopPolling_none (st : PollerState) (h : st.pollIntervalId = none) :
    stopPolling st = st := by
  unfold stopPolling
  rw [h]

/-- Unfolding equation of stopPolling with a saved timer id. -/
lemma stopPolling_some (st : PollerState) (t : Nat) (h : st.pollIntervalId = some t) :
    stopPolling st =
      { st with activeTimers := st.activeTimers.erase t, isPolling := false } := by
  unfold stopPolling
  rw [h]

/-- A state with no live timer satisfies the poller invariant. -/
lemma pollerInv_of_nil (st : PollerState) (h : st.activeTimers = []) :
    pollerInv st := by
  unfold pollerInv
  rw [h]
  trivial

/-- A state whose single live timer is the recorded one, while polling,
satisfies the invariant. -/
lemma pollerInv_single_intro (st : PollerState) (t : Nat)
    (h : st.activeTimers = [t]) (h1 : st.isPolling = true)
    (h2 : st.pollIntervalId = some t) : pollerInv st := by
  unfold pollerInv
  rw [h]
  exact ⟨h1, h2⟩

/-- Reading the invariant back on a single-timer state. -/
lemma pollerInv_single (st : PollerState) (t : Nat)
    (h : st.activeTimers = [t]) (hinv : pollerInv st) :
    st.isPolling = true ∧ st.pollIntervalId = some t := by
  unfold pollerInv at hinv
  rw [h] at hinv
  exact hinv

/-- The invariant rules out two or more live timers. -/
lemma pollerInv_many (st : PollerState) (t u : Nat) (r : List Nat)
    (h : st.activeTimers = t :: u :: r) (hinv : pollerInv st) : False := by
  unfold pollerInv at hinv
  rw [h] at hinv
  exact hinv

/-- Each poller call preserves the invariant. -/
lemma pollerInv_apply (st : PollerState) (hinv : pollerInv st) (op : PollerOp) :
    pollerInv (applyPollerOp st op) := by
  cases op with
  | start =>
    show pollerInv (startPolling st)
    cases hp : st.isPolling with
    | true =>
      rw [startPolling_true st hp]
      exact hinv
    | false =>
      rw [startPolling_false st hp]
      cases hl : st.activeTimers with
      | nil => exact pollerInv_single_intro _ st.nextTimerId rfl rfl rfl
      | cons t rest =>
        cases rest with
        | nil =>
          have hcontra := (pollerInv_single st t hl hinv).1
          rw [hp] at hcontra
          cases hcontra
        | cons u r => exact (pollerInv_many st t u r hl hinv).elim
  | stop =>
    show pollerInv (stopPolling st)
    cases hid : st.pollIntervalId with
    | none =>
      rw [stopPolling_none st hid]
      exact hinv
    | some t =>
      rw [stopPolling_some st t hid]
      cases hl : st.activeTimers with
      | nil => exact pollerInv_of_nil _ rfl
      | cons b rest =>
        cases rest with
        | nil =>
          have hpid := (pollerInv_single st b hl hinv).2
          rw [hid] at hpid
          injection hpid with htb
          apply pollerInv_of_nil
          show ([b] : List Nat).erase t = []
          rw [htb, List.erase_cons_head]
        | cons u r => exact (pollerInv_many st b u r hl hinv).elim

/-- Any call sequence from the initial poller state keeps the invariant. -/
lemma runPoller_inv (ops : List PollerOp) : pollerInv (runPoller ops) := by
  have hgen : ∀ (l : List PollerOp) (st : PollerState),
      pollerInv st → pollerInv (l.foldl applyPollerOp st) := by
    intro l
    induction l with
    | nil =>
      intro st h
      exact h
    | cons op rest ih =>
      intro st h
      rw [List.foldl_cons]
      exact ih _ (pollerInv_apply st h op)
  exact hgen ops initPoller (pollerInv_of_nil initPoller rfl)

/-- Under the invariant, at most one live timer exists. -/
lemma pollerInv_length (st : PollerState) (h : pollerInv st) :
    st.activeTimers.length ≤ 1 := by
  cases hl : st.activeTimers with
  | nil => simp [hl]
  | cons t rest =>
    cases rest with
    | nil => simp [hl]
    | cons u r => exact (pollerInv_many st t u r hl h).elim

/-- Under the invariant, stopPolling leaves no live timer. -/
lemma stopPolling_clears (st : PollerState) (h : pollerInv st) :
    (stopPolling st).activeTimers = [] := by
  cases hl : st.activeTimers with
  | nil =>
    cases hid : st.pollIntervalId with
    | none =>
      rw [stopPolling_none st hid]
      exact hl
    | some t =>
      rw [stopPolling_some st t hid]
      show st.activeTimers.erase t = []
      rw [hl]
      rfl
  | cons b rest =>
    cases rest with
    | nil =>
      have hpid := (pollerInv_single st b hl h).2
      rw [stopPolling_some st b hpid]
      show st.activeTimers.erase b = []
      rw [hl, List.erase_cons_head]
    | cons u r => exact (pollerInv_many st b u r hl h).elim

/-- Claim C7: the client poller refreshes on a fixed 30-second interval
(30000 ms) and is cancellable: startPolling is idempotent (starting while
already polling creates no second timer), any call sequence from the
initial state leaves at most one live interval timer, and stopPolling
after any call sequence clears the live timer so no further refreshes
occur. -/
theorem poller_single_timer :
    pollIntervalMs = 30000 ∧
    (∀ st : PollerState, startPolling (startPolling st) = startPolling st) ∧
    (∀ ops : List PollerOp, (runPoller ops).activeTimers.length ≤ 1) ∧
    (∀ ops : List PollerOp, (stopPolling (runPoller ops)).activeTimers = []) := by
  refine ⟨rfl, ?_, ?_, ?_⟩
  · intro st
    cases hp : st.isPolling with
    | true => rw [startPolling_true st hp, startPolling_true st hp]
    | false =>
      rw [startPolling_false st hp, startPolling_true _ rfl]
  · intro ops
    exact pollerInv_length _ (runPoller_inv ops)
  · intro ops
    exact stopPolling_clears _ (runPoller_inv ops)

end TomsBar
